import Mathlib

/-!
Shallow embedding of the two browser widgets of this repository:
the tariff fee calculator (`scriptd5f7.js`) and the EcoCash agent
locator (`EcocashLocator`).  Machine numbers are modelled as exact
rationals (`ℚ`); JavaScript truthiness of optional string / number
fields is modelled explicitly; fallible paths return `Option`.
-/

/-- The calculator form's amount string, classified exactly the way the
click handler's validation sees it: empty after trimming, non-empty but
not numeric (the `isNaN(amount)` branch), or numeric with the rational
value that `parseFloat` returns on it. -/
inductive AmountField where
  | empty
  | nonNumeric
  | num (q : ℚ)
deriving DecidableEq

/-- The payload of the calculator's AJAX request (the `data:` object of
the `$.ajax` call, minus the constant action name and nonce). -/
structure TariffRequest where
  amount : ℚ
  currency : String
  transactionType : String
deriving DecidableEq

/-- Observable outcome of one click of the calculate button: the
field-specific error messages added by `showFieldError` (paired with the
field id), the text shown in `#ecocash-amount-warning`, and the request
issued to the backend, if any. -/
structure SubmitResult where
  fieldErrors : List (String × String)
  warning : Option String
  request : Option TariffRequest
deriving DecidableEq

/-- JavaScript `s.toLowerCase()`, modelled characterwise. -/
def jsToLower (s : String) : String := ⟨s.data.map Char.toLower⟩

/-- JavaScript `s.toUpperCase()`, modelled characterwise. -/
def jsToUpper (s : String) : String := ⟨s.data.map Char.toUpper⟩

/-- JavaScript `s.trim()`: strip leading and trailing whitespace. -/
def jsTrim (s : String) : String :=
  ⟨((s.data.dropWhile Char.isWhitespace).reverse.dropWhile Char.isWhitespace).reverse⟩

/-- `convertTransactionType` from `scriptd5f7.js`: the two own keys of
`typeMap` both map to `"SENDMONEY"`; every other type falls through
`typeMap[type] || type.toUpperCase()` to the uppercased input. -/
def convertTransactionType (t : String) : String :=
  if t = "sendmoney" then "SENDMONEY"
  else if t = "SENDMONEY" then "SENDMONEY"
  else jsToUpper t

/-- The amount branch of the click handler's basic validation
(`if (!amount) ... else if (isNaN(amount)) ... else if (parseFloat(amount) <= 0)`). -/
def amountError : AmountField → Option String
  | .empty => some "Please enter an amount"
  | .nonNumeric => some "Amount must be a number"
  | .num q => if q ≤ 0 then some "Amount must be greater than zero" else none

/-- The `#ecocash-calculate-btn` click handler of `scriptd5f7.js`:
basic validation of amount, currency and transaction type; then the
per-currency limit checks; then the AJAX request with the converted
transaction type.  The final catch-all arm is unreachable: an empty
error list forces the amount to be numeric. -/
def calculateClick (amount : AmountField) (currency transactionType : String) :
    SubmitResult :=
  let aErr := amountError amount
  let cErr := if currency = "" then some "Please select a currency" else none
  let tErr := if transactionType = "" then some "Please select a transaction type" else none
  let errs : List (String × String) :=
    (aErr.toList.map fun m => ("ecocash-amount", m)) ++
    (cErr.toList.map fun m => ("ecocash-currency", m)) ++
    (tErr.toList.map fun m => ("ecocash-transaction-type", m))
  if ¬ errs.isEmpty then
    { fieldErrors := errs, warning := none, request := none }
  else
    match amount with
    | .num q =>
      if currency = "USD" ∧ 500 < q then
        { fieldErrors := [("ecocash-amount", "USD transactions cannot exceed $500")],
          warning := some "USD transactions cannot exceed $500",
          request := none }
      else if currency = "ZWG" ∧ 8000 < q then
        { fieldErrors := [("ecocash-amount", "ZWG transactions cannot exceed 8000")],
          warning := some "ZWG transactions cannot exceed 8000",
          request := none }
      else
        { fieldErrors := [], warning := none,
          request := some ⟨q, currency, convertTransactionType transactionType⟩ }
    | _ => { fieldErrors := [], warning := none, request := none }

/-- The real-time `input change` handler on `#ecocash-amount` and
`#ecocash-currency`: `parseFloat` of the field is `none` on the
`isNaN(amount)` branch (warning hidden); otherwise the same per-currency
threshold comparisons as at submit time decide the warning text. -/
def realTimeWarning (amount : Option ℚ) (currency : String) : Option String :=
  match amount with
  | none => none
  | some q =>
    if currency = "USD" ∧ 500 < q then some "USD transactions cannot exceed $500"
    else if currency = "ZWG" ∧ 8000 < q then some "ZWG transactions cannot exceed 8000"
    else none

/-- The per-currency transaction ceiling of the spec (500 for USD, 8000
for ZWG), read off the spec's table of ceilings. -/
def currencyLimit (c : String) : ℚ := if c = "USD" then 500 else 8000

/-- The ceiling message the spec pairs with each currency. -/
def limitMessage (c : String) : String :=
  if c = "USD" then "USD transactions cannot exceed $500"
  else "ZWG transactions cannot exceed 8000"

/-- The calculator backend's success payload as seen by `showSuccess`:
each fee field as the rational its string parses to, `none` when the
field is absent from the response. -/
structure TariffResponse where
  amount : Option ℚ
  serviceCharge : Option ℚ
  taxAmount : Option ℚ
  totalTariff : Option ℚ
  totalAmount : Option ℚ
deriving DecidableEq

/-- JavaScript `x || d` on an optional numeric field: absent and `0`
are falsy and fall through to the default. -/
def jsOrNum : Option ℚ → ℚ → ℚ
  | none, d => d
  | some q, d => if q = 0 then d else q

/-- Two-digit decimal rendering of `n % 100`, the fractional part
produced by `toFixed(2)`. -/
def twoDigits (n : ℕ) : String :=
  ⟨[Char.ofNat (48 + n / 10 % 10), Char.ofNat (48 + n % 10)]⟩

/-- The number of hundredths `|q|` rounds to, computed directly on the
reduced numerator and denominator; `hundredths_cast_eq_round` below
identifies it with `round (|q| * 100)`. -/
def hundredths (q : ℚ) : ℕ :=
  (200 * q.num.natAbs + q.den) / (2 * q.den)

/-- `q.toFixed(2)`: decimal rendering with exactly two fractional
digits, rounding to the nearest hundredth.  Idealized to exact decimal
arithmetic (the binary double representation error of the host is not
modelled). -/
def toFixed2 (q : ℚ) : String :=
  (if q < 0 then "-" else "") ++
    toString (hundredths q / 100) ++ "." ++ twoDigits (hundredths q % 100)

/-- The exact value `parseFloat` recovers from the string `toFixed2 q`:
the signed number of hundredths it displays. -/
def round2 (q : ℚ) : ℚ :=
  (if q < 0 then -1 else 1) * ((hundredths q : ℚ) / 100)

/-- The five strings `showSuccess` renders into the results container
(transaction amount, service charge, tax, total fee, total to pay). -/
structure SuccessView where
  amount : String
  serviceCharge : String
  taxAmount : String
  totalTariff : String
  totalAmount : String
deriving DecidableEq

/-- `showSuccess` from `scriptd5f7.js`: fields default through `||`
(`serviceCharge`, `taxAmount`, `totalTariff` to `'0.00'`, i.e. the value
`0`; `amount` to the form's amount field; `totalAmount` to
`(parseFloat(amount) + parseFloat(totalTariff)).toFixed(2)`, whose later
`parseFloat` yields exactly `round2` of the sum), and every displayed
value is rendered via `parseFloat(x).toFixed(2)`. -/
def showSuccess (resp : TariffResponse) (formAmount : ℚ) : SuccessView :=
  let amount := jsOrNum resp.amount formAmount
  let serviceCharge := jsOrNum resp.serviceCharge 0
  let taxAmount := jsOrNum resp.taxAmount 0
  let totalTariff := jsOrNum resp.totalTariff 0
  let totalAmount := jsOrNum resp.totalAmount (round2 (amount + totalTariff))
  { amount := toFixed2 amount
    serviceCharge := toFixed2 serviceCharge
    taxAmount := toFixed2 taxAmount
    totalTariff := toFixed2 totalTariff
    totalAmount := toFixed2 totalAmount }

/-- A string whose final `'.'` is followed by exactly two characters,
both decimal digits: the shape of a value formatted to two decimal
places. -/
def twoDecimalString (s : String) : Prop :=
  ∃ h c₁ c₂, s.data = h ++ ['.', c₁, c₂] ∧ c₁.isDigit = true ∧ c₂.isDigit = true

/-- An agent object as received from the locator backend: every field
may be absent (`none`).  Numeric fields are exact rationals. -/
structure Agent where
  id : Option String
  representative : Option String
  address : Option String
  city : Option String
  province : Option String
  msisdn : Option String
  latitude : Option ℚ
  longitude : Option ℚ
  distance : Option ℚ
deriving DecidableEq

/-- JavaScript truthiness of an optional string field: absent and the
empty string are falsy. -/
def truthyStr : Option String → Bool
  | none => false
  | some s => decide (s ≠ "")

/-- JavaScript truthiness of an optional numeric field: absent and `0`
are falsy. -/
def truthyNum : Option ℚ → Bool
  | none => false
  | some q => decide (q ≠ 0)

/-- The locator state touched by the claims: `state.agents` (the
accumulated list) and `state.filteredAgents`. -/
structure LocState where
  agents : List Agent
  filteredAgents : List Agent
deriving DecidableEq

/-- The locator's initial state: both lists empty. -/
def initialLocState : LocState := ⟨[], []⟩

/-- The per-entry validity test of `processAgentsData`:
`agent.id && agent.representative && agent.latitude && agent.longitude`. -/
def isValidAgent (a : Agent) : Bool :=
  truthyStr a.id && truthyStr a.representative &&
    truthyNum a.latitude && truthyNum a.longitude

/-- `this.state.agents.some(existingAgent => existingAgent.id === agent.id)`. -/
def idAlreadyPresent (existing : List Agent) (a : Agent) : Bool :=
  existing.any fun ex => decide (ex.id = a.id)

/-- The `newAgents.filter(...)` of `processAgentsData`: keep the
non-null entries whose four required fields are truthy and whose id is
not already among the existing agents.  The existing list is the one
fixed before the filter runs. -/
def validNewAgents (existing : List Agent) (l : List (Option Agent)) : List Agent :=
  l.filterMap fun e =>
    match e with
    | none => none
    | some a =>
      if isValidAgent a && !idAlreadyPresent existing a then some a else none

/-- The `response.data.agents` value handed to `processAgentsData`:
either an array of (possibly null) agent objects, or some truthy
non-array value. -/
inductive AgentsVal where
  | arr (l : List (Option Agent))
  | nonArr
deriving DecidableEq

/-- `processAgentsData` from the locator: a non-array input hits the
`!Array.isArray` guard (a console warning only; no state change and no
user-visible message).  Otherwise the deduplicated valid new agents are
appended to `state.agents`, `state.filteredAgents` is reset to a copy of
the new list, and the first successful load announces the count. -/
def processAgentsData (st : LocState) (v : AgentsVal) :
    LocState × Option (String × String) :=
  match v with
  | .nonArr => (st, none)
  | .arr l =>
    let valid := validNewAgents st.agents l
    if valid.isEmpty then (st, none)
    else
      let merged := st.agents ++ valid
      (⟨merged, merged⟩,
        if merged.length = valid.length then
          some ("Found " ++ toString merged.length ++ " EcoCash agents", "success")
        else none)

/-- Iterate `processAgentsData` over a sequence of backend array
payloads, starting from the empty initial state. -/
def accumulateLoads (batches : List (List (Option Agent))) : LocState :=
  batches.foldl (fun st l => (processAgentsData st (.arr l)).1) initialLocState

/-- The `response.data` object of a locator load: its `agents` value
(`none` when absent or falsy) and its optional `message`. -/
structure LoadData where
  agentsVal : Option AgentsVal
  message : Option String
deriving DecidableEq

/-- One settled locator load: either the `$.ajax` call rejected (a
network / HTTP failure with an `error.status` and an optional message in
`error.responseJSON.data.message`), or it resolved to a JSON response
with a `success` flag and an optional `data` object. -/
inductive LoadOutcome where
  | netError (status : ℤ) (respMsg : Option String)
  | resp (success : Bool) (data : Option LoadData)
deriving DecidableEq

/-- The message built in the `catch` block of `loadAgents` for a
rejected AJAX call. -/
def netErrorMessage (status : ℤ) (respMsg : Option String) : String :=
  "Failed to load agents. " ++
    (if status = 0 then "Please check your internet connection."
     else if 500 ≤ status then "Server error occurred."
     else respMsg.getD "Please try again later.")

/-- One pass through `loadAgents`' `try/catch`: a resolved response with
`success && data && data.agents` truthy goes to `processAgentsData`;
any other resolved response is thrown as an `Error` and caught (an
`Error` has no `status` and no `responseJSON`, so the catch block always
produces `'Failed to load agents. Please try again later.'`); a rejected
call produces `netErrorMessage`.  Returns the new state and the message
passed to `showMessage`, if any. -/
def loadAgentsStep (st : LocState) (o : LoadOutcome) :
    LocState × Option (String × String) :=
  match o with
  | .netError status respMsg => (st, some (netErrorMessage status respMsg, "error"))
  | .resp success data =>
    match success, data with
    | true, some d =>
      match d.agentsVal with
      | some v => processAgentsData st v
      | none => (st, some ("Failed to load agents. Please try again later.", "error"))
    | true, none => (st, some ("Failed to load agents. Please try again later.", "error"))
    | false, _ => (st, some ("Failed to load agents. Please try again later.", "error"))

/-- A load outcome that fails to deliver an array of agents: a network
error, a non-success or data-less response, or a truthy non-array
`agents` payload. -/
def loadFails : LoadOutcome → Bool
  | .netError _ _ => true
  | .resp success data =>
    match success, data with
    | true, some d =>
      match d.agentsVal with
      | some (.arr _) => false
      | _ => true
    | _, _ => true

/-- The `searchFields` array of `searchInAgent`. -/
def searchFields (a : Agent) : List (Option String) :=
  [a.representative, a.address, a.city, a.province, a.msisdn]

/-- JavaScript `s.includes(sub)`: `sub` occurs contiguously in `s`. -/
def jsIncludes (s sub : String) : Bool := decide (sub.data <:+: s.data)

/-- `searchInAgent` from the locator:
`searchFields.some(field => field && field.toLowerCase().includes(searchTerm))`. -/
def searchInAgent (a : Agent) (searchTerm : String) : Bool :=
  (searchFields a).any fun f =>
    match f with
    | none => false
    | some s => decide (s ≠ "") && jsIncludes (jsToLower s) searchTerm

/-- `performSearch`' filtering of the agents list: the raw input is
lowercased then trimmed; an empty result keeps every agent, otherwise
agents are filtered through `searchInAgent`. -/
def performSearch (agents : List Agent) (rawTerm : String) : List Agent :=
  let searchTerm := jsTrim (jsToLower rawTerm)
  if searchTerm = "" then agents
  else agents.filter fun a => searchInAgent a searchTerm

/-- The effective sort key of the distance branch of `sortAgents`:
`a.distance || 999999`, so an absent or zero distance becomes the
sentinel `999999`. -/
def effectiveDistance (a : Agent) : ℚ :=
  match a.distance with
  | none => 999999
  | some d => if d = 0 then 999999 else d

/-- The representative name used by the name branch of `sortAgents`
(`a.representative.localeCompare(b.representative)`); stored agents
always carry one, so the default is never exercised there. -/
def repName (a : Agent) : String := a.representative.getD ""

/-- Comparator of the distance branch of `sortAgents`. -/
abbrev byDistance (a b : Agent) : Prop :=
  effectiveDistance a ≤ effectiveDistance b

/-- Comparator of the name branch of `sortAgents`. -/
abbrev byName (a b : Agent) : Prop := repName a ≤ repName b

instance : IsTotal Agent byDistance := ⟨fun _ _ => le_total _ _⟩

instance : IsTrans Agent byDistance := ⟨fun _ _ _ h₁ h₂ => le_trans h₁ h₂⟩

instance : IsTotal Agent byName := ⟨fun _ _ => le_total _ _⟩

instance : IsTrans Agent byName := ⟨fun _ _ _ h₁ h₂ => le_trans h₁ h₂⟩

/-- `sortAgents` from the locator: `Array.prototype.sort` with the
distance comparator on `'distance'`, the name comparator on `'name'`
and on the default branch.  ECMAScript guarantees a stable sort
consistent with the comparator, which for these total preorders is
exactly insertion sort. -/
def sortAgents (sortBy : String) (l : List Agent) : List Agent :=
  if sortBy = "distance" then l.insertionSort byDistance
  else l.insertionSort byName

/-- Concrete agent builder for test instances. -/
def mkAgent (i rep : String) (dist : Option ℚ) : Agent :=
  { id := some i, representative := some rep, address := none, city := none,
    province := none, msisdn := none, latitude := some 1, longitude := some 1,
    distance := dist }

theorem hundredths_cast_eq_round (q : ℚ) : (hundredths q : ℤ) = round (|q| * 100) := by
  have hden : ((q.den : ℚ)) ≠ 0 := by exact_mod_cast q.den_nz
  have habs : |q| = (q.num.natAbs : ℚ) / (q.den : ℚ) := by
    rw [Int.cast_natAbs, Int.cast_abs,
      ← abs_of_nonneg (by positivity : (0:ℚ) ≤ (q.den : ℚ)), ← abs_div,
      Rat.num_div_den]
  have key : |q| * 100 + 1 / 2 =
      ((200 * q.num.natAbs + q.den : ℕ) : ℚ) / ((2 * q.den : ℕ) : ℚ) := by
    rw [habs]
    push_cast
    field_simp
    ring
  rw [round_eq, key, Rat.floor_natCast_div_natCast, hundredths]
  push_cast
  rfl

theorem digitChar_isDigit (k : ℕ) (hk : k < 10) :
    (Char.ofNat (48 + k)).isDigit = true := by
  interval_cases k <;> decide

theorem toFixed2_twoDecimalString (q : ℚ) : twoDecimalString (toFixed2 q) := by
  refine ⟨((if q < 0 then "-" else "") ++ toString (hundredths q / 100)).data,
    Char.ofNat (48 + hundredths q % 100 / 10 % 10),
    Char.ofNat (48 + hundredths q % 100 % 10), ?_, ?_, ?_⟩
  · show (toFixed2 q).data = _
    rw [toFixed2, twoDigits, String.data_append, String.data_append]
    simp
  · exact digitChar_isDigit _ (Nat.mod_lt _ (by norm_num))
  · exact digitChar_isDigit _ (Nat.mod_lt _ (by norm_num))

theorem round2_nonneg (q : ℚ) (hq : 0 ≤ q) : 0 ≤ round2 q := by
  rw [round2, if_neg (not_lt.mpr hq), one_mul]
  positivity

theorem hundredths_round2 (q : ℚ) (hq : 0 ≤ q) :
    hundredths (round2 q) = hundredths q := by
  have h2 : (hundredths (round2 q) : ℤ) = round (|round2 q| * 100) :=
    hundredths_cast_eq_round (round2 q)
  have h3 : |round2 q| * 100 = ((hundredths q : ℕ) : ℚ) := by
    rw [abs_of_nonneg (round2_nonneg q hq), round2, if_neg (not_lt.mpr hq), one_mul,
      div_mul_cancel₀ _ (by norm_num : (100:ℚ) ≠ 0)]
  rw [h3, round_natCast] at h2
  exact_mod_cast h2

theorem toFixed2_round2 (q : ℚ) (hq : 0 ≤ q) : toFixed2 (round2 q) = toFixed2 q := by
  rw [toFixed2, toFixed2, hundredths_round2 q hq,
    if_neg (not_lt.mpr (round2_nonneg q hq)), if_neg (not_lt.mpr hq)]

/-- Claim C1: for currency USD or ZWG and a basically-valid amount
(numeric, positive) with a selected transaction type, the submit-time
limit check accepts an amount at or below the currency's ceiling (500
USD, 8000 ZWG) and issues the backend request, and rejects an amount
strictly above the ceiling with no request, the ceiling field error and
the ceiling warning; the real-time handler applies the same threshold
comparison. -/
theorem C1_limit_check (q : ℚ) (c t : String) (hq : 0 < q)
    (hc : c = "USD" ∨ c = "ZWG") (ht : t ≠ "") :
    (q ≤ currencyLimit c →
      (calculateClick (.num q) c t).request =
          some ⟨q, c, convertTransactionType t⟩ ∧
        (calculateClick (.num q) c t).warning = none ∧
        (calculateClick (.num q) c t).fieldErrors = []) ∧
    (currencyLimit c < q →
      (calculateClick (.num q) c t).request = none ∧
        (calculateClick (.num q) c t).warning = some (limitMessage c) ∧
        (calculateClick (.num q) c t).fieldErrors =
          [("ecocash-amount", limitMessage c)]) ∧
    realTimeWarning (some q) c =
      (if currencyLimit c < q then some (limitMessage c) else none) := by
  have hq0 : ¬ q ≤ 0 := not_le.mpr hq
  rcases hc with rfl | rfl
  · have hcl : currencyLimit "USD" = 500 := by simp [currencyLimit]
    have hlm : limitMessage "USD" = "USD transactions cannot exceed $500" := by
      simp [limitMessage]
    refine ⟨?_, ?_, ?_⟩
    · intro hle
      rw [hcl] at hle
      have hgt : ¬ ((500:ℚ) < q) := not_lt.mpr hle
      simp [calculateClick, amountError, hq0, ht, hgt]
    · intro hlt
      rw [hcl] at hlt
      simp [calculateClick, amountError, hq0, ht, hlt, hlm]
    · rw [hcl, hlm]
      by_cases hlt : (500:ℚ) < q <;> simp [realTimeWarning, hlt]
  · have hcl : currencyLimit "ZWG" = 8000 := by simp [currencyLimit]
    have hlm : limitMessage "ZWG" = "ZWG transactions cannot exceed 8000" := by
      simp [limitMessage]
    refine ⟨?_, ?_, ?_⟩
    · intro hle
      rw [hcl] at hle
      have hgt : ¬ ((8000:ℚ) < q) := not_lt.mpr hle
      simp [calculateClick, amountError, hq0, ht, hgt]
    · intro hlt
      rw [hcl] at hlt
      simp [calculateClick, amountError, hq0, ht, hlt, hlm]
    · rw [hcl, hlm]
      by_cases hlt : (8000:ℚ) < q <;> simp [realTimeWarning, hlt]

/-- Witness for C1 at the spec's example: amount 600, currency USD is
rejected, with no request, the ceiling message shown, and the same
warning from the real-time handler. -/
theorem C1_limit_check_witness :
    (calculateClick (.num 600) "USD" "sendmoney").request = none ∧
    (calculateClick (.num 600) "USD" "sendmoney").warning =
      some "USD transactions cannot exceed $500" ∧
    (calculateClick (.num 600) "USD" "sendmoney").fieldErrors =
      [("ecocash-amount", "USD transactions cannot exceed $500")] := by
  have h :=
    (C1_limit_check 600 "USD" "sendmoney" (by norm_num) (Or.inl rfl) (by decide)).2.1
      (by norm_num [currencyLimit])
  simpa [limitMessage] using h

/-- Claim C6: `convertTransactionType` maps the two keys of its map to
`"SENDMONEY"` and uppercases every other type; in particular a valid
submission with amount 50, currency ZWG and type `"sendmoney"` issues a
request carrying the backend code `"SENDMONEY"`. -/
theorem C6_convertTransactionType :
    (∀ t : String, t = "sendmoney" ∨ t = "SENDMONEY" →
      convertTransactionType t = "SENDMONEY") ∧
    (∀ t : String, t ≠ "sendmoney" → t ≠ "SENDMONEY" →
      convertTransactionType t = jsToUpper t) ∧
    (calculateClick (.num 50) "ZWG" "sendmoney").request =
      some { amount := 50, currency := "ZWG", transactionType := "SENDMONEY" } := by
  refine ⟨?_, ?_, ?_⟩
  · rintro t (rfl | rfl) <;> rfl
  · intro t h1 h2
    rw [convertTransactionType, if_neg h1, if_neg h2]
  · decide

/-- Witness for C6: the mapped key and an unmapped type uppercased. -/
theorem C6_convertTransactionType_witness :
    convertTransactionType "sendmoney" = "SENDMONEY" ∧
    convertTransactionType "cashout" = "CASHOUT" := by
  refine ⟨C6_convertTransactionType.1 "sendmoney" (Or.inl rfl), ?_⟩
  rw [C6_convertTransactionType.2.1 "cashout" (by decide) (by decide)]
  decide

/-- Claim C7: a backend request is issued only when the amount is
numeric and strictly positive and the currency and transaction type are
non-empty; each failing field produces its specific error message and
blocks the request. -/
theorem C7_validation (amount : AmountField) (c t : String) :
    ((calculateClick amount c t).request.isSome = true →
      (∃ q : ℚ, amount = .num q ∧ 0 < q) ∧ c ≠ "" ∧ t ≠ "") ∧
    (amount = .empty →
      ("ecocash-amount", "Please enter an amount") ∈
          (calculateClick amount c t).fieldErrors ∧
        (calculateClick amount c t).request = none) ∧
    (amount = .nonNumeric →
      ("ecocash-amount", "Amount must be a number") ∈
          (calculateClick amount c t).fieldErrors ∧
        (calculateClick amount c t).request = none) ∧
    (∀ q : ℚ, amount = .num q → q ≤ 0 →
      ("ecocash-amount", "Amount must be greater than zero") ∈
          (calculateClick amount c t).fieldErrors ∧
        (calculateClick amount c t).request = none) ∧
    (c = "" →
      ("ecocash-currency", "Please select a currency") ∈
          (calculateClick amount c t).fieldErrors ∧
        (calculateClick amount c t).request = none) ∧
    (t = "" →
      ("ecocash-transaction-type", "Please select a transaction type") ∈
          (calculateClick amount c t).fieldErrors ∧
        (calculateClick amount c t).request = none) := by
  refine ⟨?_, ?_, ?_, ?_, ?_, ?_⟩
  · intro hreq
    rcases amount with _ | _ | q
    · exfalso
      simp [calculateClick, amountError] at hreq
    · exfalso
      simp [calculateClick, amountError] at hreq
    · by_cases hq : q ≤ 0
      · exfalso
        simp [calculateClick, amountError, hq] at hreq
      · refine ⟨⟨q, rfl, not_le.mp hq⟩, ?_, ?_⟩
        · intro hc
          simp [calculateClick, amountError, hq, hc] at hreq
        · intro ht
          simp [calculateClick, amountError, hq, ht] at hreq
  · rintro rfl
    simp [calculateClick, amountError]
  · rintro rfl
    simp [calculateClick, amountError]
  · rintro q rfl hq0
    simp [calculateClick, amountError, hq0]
  · rintro rfl
    rcases amount with _ | _ | q <;> simp [calculateClick, amountError]
  · rintro rfl
    rcases amount with _ | _ | q <;> simp [calculateClick, amountError]

/-- Witness for C7: with everything missing, all three selector errors
appear and no request is issued. -/
theorem C7_validation_witness :
    (("ecocash-amount", "Please enter an amount") ∈
        (calculateClick .empty "" "").fieldErrors ∧
      (calculateClick .empty "" "").request = none) ∧
    (("ecocash-currency", "Please select a currency") ∈
        (calculateClick .empty "" "").fieldErrors ∧
      (calculateClick .empty "" "").request = none) ∧
    (("ecocash-transaction-type", "Please select a transaction type") ∈
        (calculateClick .empty "" "").fieldErrors ∧
      (calculateClick .empty "" "").request = none) :=
  ⟨(C7_validation .empty "" "").2.1 rfl,
    (C7_validation .empty "" "").2.2.2.2.1 rfl,
    (C7_validation .empty "" "").2.2.2.2.2 rfl⟩

/-- Claim C10: `showSuccess` defaults omitted fields (`serviceCharge`,
`taxAmount`, `totalTariff` to `"0.00"`, `amount` to the form's value,
`totalAmount` to the sum of amount and total tariff formatted to two
decimals), and all five displayed values are formatted with exactly two
decimal places. -/
theorem C10_showSuccess_defaults (resp : TariffResponse) (fa : ℚ) :
    (resp.amount = none → (showSuccess resp fa).amount = toFixed2 fa) ∧
    (resp.serviceCharge = none → (showSuccess resp fa).serviceCharge = "0.00") ∧
    (resp.taxAmount = none → (showSuccess resp fa).taxAmount = "0.00") ∧
    (resp.totalTariff = none → (showSuccess resp fa).totalTariff = "0.00") ∧
    (resp.totalAmount = none →
      0 ≤ jsOrNum resp.amount fa + jsOrNum resp.totalTariff 0 →
      (showSuccess resp fa).totalAmount =
        toFixed2 (jsOrNum resp.amount fa + jsOrNum resp.totalTariff 0)) ∧
    twoDecimalString (showSuccess resp fa).amount ∧
    twoDecimalString (showSuccess resp fa).serviceCharge ∧
    twoDecimalString (showSuccess resp fa).taxAmount ∧
    twoDecimalString (showSuccess resp fa).totalTariff ∧
    twoDecimalString (showSuccess resp fa).totalAmount := by
  have h000 : toFixed2 0 = "0.00" := by decide
  refine ⟨?_, ?_, ?_, ?_, ?_, ?_, ?_, ?_, ?_, ?_⟩
  · intro h
    simp [showSuccess, h, jsOrNum]
  · intro h
    simp [showSuccess, h, jsOrNum, h000]
  · intro h
    simp [showSuccess, h, jsOrNum, h000]
  · intro h
    simp [showSuccess, h, jsOrNum, h000]
  · intro h hnn
    have step : (showSuccess resp fa).totalAmount =
        toFixed2 (jsOrNum resp.totalAmount
          (round2 (jsOrNum resp.amount fa + jsOrNum resp.totalTariff 0))) := rfl
    rw [step, h]
    exact toFixed2_round2 _ hnn
  · exact toFixed2_twoDecimalString _
  · exact toFixed2_twoDecimalString _
  · exact toFixed2_twoDecimalString _
  · exact toFixed2_twoDecimalString _
  · exact toFixed2_twoDecimalString _

/-- Witness for C10: the all-absent response with form amount 5 shows
the defaults. -/
theorem C10_showSuccess_defaults_witness :
    (showSuccess ⟨none, none, none, none, none⟩ 5).serviceCharge = "0.00" ∧
    (showSuccess ⟨none, none, none, none, none⟩ 5).amount = toFixed2 5 ∧
    (showSuccess ⟨none, none, none, none, none⟩ 5).totalAmount =
      toFixed2 (jsOrNum none 5 + jsOrNum none 0) :=
  ⟨(C10_showSuccess_defaults ⟨none, none, none, none, none⟩ 5).2.1 rfl,
    (C10_showSuccess_defaults ⟨none, none, none, none, none⟩ 5).1 rfl,
    (C10_showSuccess_defaults ⟨none, none, none, none, none⟩ 5).2.2.2.2.1 rfl
      (by norm_num [jsOrNum])⟩

theorem validNewAgents_eq_filter (existing : List Agent) (l : List (Option Agent)) :
    validNewAgents existing l =
      (l.filterMap id).filter
        (fun a => isValidAgent a && !idAlreadyPresent existing a) := by
  induction l with
  | nil => rfl
  | cons e tl ih =>
    cases e with
    | none =>
      simpa [validNewAgents, List.filterMap_cons] using ih
    | some a =>
      by_cases hp : isValidAgent a = true ∧ idAlreadyPresent existing a = false
      · simpa [validNewAgents, List.filterMap_cons, List.filter_cons, hp] using ih
      · simpa [validNewAgents, List.filterMap_cons, List.filter_cons, hp] using ih

theorem mem_validNewAgents {existing : List Agent} {l : List (Option Agent)}
    {a : Agent} (h : a ∈ validNewAgents existing l) :
    some a ∈ l ∧ isValidAgent a = true ∧ idAlreadyPresent existing a = false := by
  rw [validNewAgents_eq_filter] at h
  have h1 := List.of_mem_filter h
  have h2 := List.mem_of_mem_filter h
  have h1' : isValidAgent a = true ∧ idAlreadyPresent existing a = false := by
    simpa using h1
  refine ⟨?_, h1'.1, h1'.2⟩
  rcases List.mem_filterMap.mp h2 with ⟨o, ho, hoa⟩
  cases o with
  | none => simp at hoa
  | some x =>
    simp at hoa
    exact hoa ▸ ho

theorem processAgentsData_agents (st : LocState) (l : List (Option Agent)) :
    (processAgentsData st (.arr l)).1.agents =
      st.agents ++ validNewAgents st.agents l := by
  by_cases h : (validNewAgents st.agents l).isEmpty
  · simp [processAgentsData, h, List.isEmpty_iff.mp h]
  · simp [processAgentsData, h]

theorem processAgentsData_filteredAgents (st : LocState) (l : List (Option Agent)) :
    (processAgentsData st (.arr l)).1.filteredAgents = st.filteredAgents ∨
    (processAgentsData st (.arr l)).1.filteredAgents =
      st.agents ++ validNewAgents st.agents l := by
  by_cases h : (validNewAgents st.agents l).isEmpty
  · left
    simp [processAgentsData, h]
  · right
    simp [processAgentsData, h]

theorem nodup_ids_step (st : LocState) (l : List (Option Agent))
    (hst : (st.agents.map (fun a => a.id)).Nodup)
    (hl : ((l.filterMap id).map (fun a => a.id)).Nodup) :
    ((processAgentsData st (.arr l)).1.agents.map (fun a => a.id)).Nodup := by
  rw [processAgentsData_agents, List.map_append]
  refine List.Nodup.append hst ?_ ?_
  · have hsub : List.Sublist (validNewAgents st.agents l) (l.filterMap id) := by
      rw [validNewAgents_eq_filter]
      exact List.filter_sublist _
    exact hl.sublist (hsub.map _)
  · intro x hx hx2
    rcases List.mem_map.mp hx with ⟨ex, hex, rfl⟩
    rcases List.mem_map.mp hx2 with ⟨a, ha, hid⟩
    have h3 := (mem_validNewAgents ha).2.2
    simp only [idAlreadyPresent, List.any_eq_false, decide_eq_true_eq] at h3
    exact h3 ex hex hid.symm

theorem accumulate_nodup_ids (batches : List (List (Option Agent))) :
    ∀ st : LocState,
      (∀ b ∈ batches, ((b.filterMap id).map (fun a => a.id)).Nodup) →
      (st.agents.map (fun a => a.id)).Nodup →
      ((batches.foldl (fun st l => (processAgentsData st (.arr l)).1) st).agents.map
        (fun a => a.id)).Nodup := by
  induction batches with
  | nil =>
    intro st _ hst
    simpa using hst
  | cons b tl ih =>
    intro st h hst
    simp only [List.foldl_cons]
    exact ih _ (fun x hx => h x (List.mem_cons_of_mem _ hx))
      (nodup_ids_step st b hst (h b (List.mem_cons_self _ _)))

/-- Claim C2 is false as stated: one backend response whose array
repeats the same (otherwise valid) agent object adds it twice, because
the duplicate filter only checks ids against the previously stored
agents, not within the incoming batch. -/
theorem C2_no_duplicate_ids_cex :
    (processAgentsData initialLocState
        (.arr [some (mkAgent "1" "Alice" none),
          some (mkAgent "1" "Alice" none)])).1.agents =
      [mkAgent "1" "Alice" none, mkAgent "1" "Alice" none] ∧
    ¬ ((processAgentsData initialLocState
        (.arr [some (mkAgent "1" "Alice" none),
          some (mkAgent "1" "Alice" none)])).1.agents.map
            (fun a => a.id)).Nodup := by
  constructor
  · decide
  · decide

/-- Claim C2 (amended): provided each single backend response carries
pairwise-distinct ids among its non-null entries, an agent id is never
added twice — after any sequence of loads the accumulated list has
pairwise-distinct ids. -/
theorem C2_no_duplicate_ids (batches : List (List (Option Agent)))
    (h : ∀ b ∈ batches, ((b.filterMap id).map (fun a => a.id)).Nodup) :
    ((accumulateLoads batches).agents.map (fun a => a.id)).Nodup :=
  accumulate_nodup_ids batches initialLocState h (by simp [initialLocState])

/-- Witness for C2 (amended): two distinct-id batches, the second
repeating an id of the first, end with pairwise-distinct stored ids. -/
theorem C2_no_duplicate_ids_witness :
    (∀ b ∈ [[some (mkAgent "1" "Alice" none), some (mkAgent "2" "Bob" none)],
        [some (mkAgent "2" "Bob" none), some (mkAgent "3" "Carol" none)]],
      ((b.filterMap id).map (fun a => a.id)).Nodup) ∧
    ((accumulateLoads
        [[some (mkAgent "1" "Alice" none), some (mkAgent "2" "Bob" none)],
          [some (mkAgent "2" "Bob" none), some (mkAgent "3" "Carol" none)]]).agents.map
      (fun a => a.id)).Nodup :=
  ⟨by decide, C2_no_duplicate_ids _ (by decide)⟩

/-- Claim C9: every agent ever stored in the accumulated agents list (or
the filtered list) has a truthy id, representative, latitude and
longitude — `processAgentsData` drops null entries and entries missing
one of these fields, including a latitude or longitude equal to 0. -/
theorem C9_stored_agents_valid (batches : List (List (Option Agent))) (a : Agent) :
    (a ∈ (accumulateLoads batches).agents → isValidAgent a = true) ∧
    (a ∈ (accumulateLoads batches).filteredAgents → isValidAgent a = true) := by
  suffices H : ∀ (bs : List (List (Option Agent))) (st : LocState),
      (∀ x ∈ st.agents, isValidAgent x = true) →
      (∀ x ∈ st.filteredAgents, isValidAgent x = true) →
      (∀ x ∈ (bs.foldl (fun st l => (processAgentsData st (.arr l)).1) st).agents,
        isValidAgent x = true) ∧
      (∀ x ∈ (bs.foldl (fun st l => (processAgentsData st (.arr l)).1) st).filteredAgents,
        isValidAgent x = true) by
    have h := H batches initialLocState (by simp [initialLocState])
      (by simp [initialLocState])
    exact ⟨fun hm => h.1 a hm, fun hm => h.2 a hm⟩
  intro bs
  induction bs with
  | nil =>
    intro st h1 h2
    exact ⟨h1, h2⟩
  | cons b tl ih =>
    intro st h1 h2
    simp only [List.foldl_cons]
    have hmerged : ∀ x ∈ st.agents ++ validNewAgents st.agents b, isValidAgent x = true := by
      intro x hx
      rcases List.mem_append.mp hx with hx | hx
      · exact h1 x hx
      · exact (mem_validNewAgents hx).2.1
    apply ih
    · intro x hx
      rw [processAgentsData_agents] at hx
      exact hmerged x hx
    · intro x hx
      rcases processAgentsData_filteredAgents st b with he | he
      · rw [he] at hx
        exact h2 x hx
      · rw [he] at hx
        exact hmerged x hx

/-- Witness for C9: a stored agent from a concrete load is valid. -/
theorem C9_stored_agents_valid_witness :
    mkAgent "7" "Eve" none ∈
        (accumulateLoads [[some (mkAgent "7" "Eve" none), none]]).agents ∧
    isValidAgent (mkAgent "7" "Eve" none) = true :=
  ⟨by decide,
    (C9_stored_agents_valid [[some (mkAgent "7" "Eve" none), none]]
      (mkAgent "7" "Eve" none)).1 (by decide)⟩

theorem searchInAgent_iff (a : Agent) (term : String) :
    searchInAgent a term = true ↔
      ∃ s : String, some s ∈ searchFields a ∧ s ≠ "" ∧
        List.IsInfix term.data (jsToLower s).data := by
  rw [searchInAgent, List.any_eq_true]
  constructor
  · rintro ⟨f, hf, hcond⟩
    cases f with
    | none => simp at hcond
    | some s =>
      have hcond' : s ≠ "" ∧ term.data <:+: (jsToLower s).data := by
        simpa [jsIncludes] using hcond
      exact ⟨s, hf, hcond'.1, hcond'.2⟩
  · rintro ⟨s, hs, hne, hinc⟩
    refine ⟨some s, hs, ?_⟩
    simp [jsIncludes, hne, hinc]

/-- Claim C4: the agent search is case-insensitive and matches exactly
the five fields representative, address, city, province, msisdn — with
a non-empty (lowercased, trimmed) term, an agent is kept iff one of
those fields is present (truthy) and contains the term as a substring;
an empty or whitespace-only term keeps every agent. -/
theorem C4_search (agents : List Agent) (rawTerm : String) (a : Agent) :
    (jsTrim (jsToLower rawTerm) = "" → performSearch agents rawTerm = agents) ∧
    (jsTrim (jsToLower rawTerm) ≠ "" →
      (a ∈ performSearch agents rawTerm ↔
        a ∈ agents ∧ ∃ s : String, some s ∈ searchFields a ∧ s ≠ "" ∧
          List.IsInfix (jsTrim (jsToLower rawTerm)).data (jsToLower s).data)) := by
  constructor
  · intro h
    simp [performSearch, h]
  · intro h
    rw [show performSearch agents rawTerm =
          List.filter (fun x => searchInAgent x (jsTrim (jsToLower rawTerm))) agents from by
        simp [performSearch, h]]
    rw [List.mem_filter, searchInAgent_iff]

/-- Witness for C4: the raw term `"HaR "` (mixed case, trailing blank)
matches an agent through its representative field. -/
theorem C4_search_witness :
    mkAgent "1" "Harare Shop" none ∈
      performSearch [mkAgent "1" "Harare Shop" none] "HaR " :=
  ((C4_search [mkAgent "1" "Harare Shop" none] "HaR "
      (mkAgent "1" "Harare Shop" none)).2 (by decide)).mpr
    ⟨by decide, "Harare Shop", by decide, by decide, by decide⟩

/-- Claim C3 is false as stated: the distance comparator replaces a
falsy distance by the sentinel `999999`, so an agent with unknown
distance sorts before an agent whose known distance is `1000000`, not
after it. -/
theorem C3_distance_sort_cex :
    sortAgents "distance"
        [mkAgent "2" "Bob" (some 1000000), mkAgent "3" "Carol" none] =
      [mkAgent "3" "Carol" none, mkAgent "2" "Bob" (some 1000000)] ∧
    (mkAgent "3" "Carol" none).distance = none ∧
    (mkAgent "2" "Bob" (some 1000000)).distance = some 1000000 :=
  ⟨by decide, rfl, rfl⟩

/-- Claim C3 (amended): sorting by distance orders the list ascending by
effective distance, where an absent or zero distance is mapped to the
sentinel `999999`; consequently an agent with unknown distance never
precedes one whose effective distance is below the sentinel (agents with
known distance at or above `999999` may still precede it). -/
theorem C3_distance_sort (l : List Agent) :
    (sortAgents "distance" l).Perm l ∧
    List.Sorted byDistance (sortAgents "distance" l) ∧
    (∀ a b : Agent, b.distance = none → effectiveDistance a < 999999 →
      ¬ List.Sublist [b, a] (sortAgents "distance" l)) := by
  have hsort : sortAgents "distance" l = l.insertionSort byDistance := by
    simp [sortAgents]
  refine ⟨?_, ?_, ?_⟩
  · rw [hsort]
    exact l.perm_insertionSort byDistance
  · rw [hsort]
    exact List.sorted_insertionSort byDistance l
  · intro a b hb ha hsub
    have hp : List.Pairwise byDistance (sortAgents "distance" l) := by
      rw [hsort]
      exact List.sorted_insertionSort byDistance l
    have hba : byDistance b a := List.rel_of_pairwise_cons (hp.sublist hsub)
      (List.mem_singleton.mpr rfl)
    have hbe : effectiveDistance b = 999999 := by
      simp [effectiveDistance, hb]
    rw [byDistance, hbe] at hba
    exact absurd ha (not_lt.mpr hba)

/-- Witness for C3 (amended): an unknown-distance agent cannot precede a
known nearby agent in the sorted output. -/
theorem C3_distance_sort_witness :
    ¬ List.Sublist [mkAgent "3" "Carol" none, mkAgent "4" "Ann" (some 5)]
        (sortAgents "distance"
          [mkAgent "4" "Ann" (some 5), mkAgent "3" "Carol" none]) :=
  (C3_distance_sort [mkAgent "4" "Ann" (some 5), mkAgent "3" "Carol" none]).2.2
    (mkAgent "4" "Ann" (some 5)) (mkAgent "3" "Carol" none) rfl (by decide)

/-- Claim C5: sorting by name is a stable lexicographic sort on the
representative name: the output is a permutation of the input, sorted by
name, and two entries with equal names keep their relative order. -/
theorem C5_name_sort (l : List Agent) :
    (sortAgents "name" l).Perm l ∧
    List.Sorted byName (sortAgents "name" l) ∧
    (∀ a b : Agent, repName a = repName b → List.Sublist [a, b] l →
      List.Sublist [a, b] (sortAgents "name" l)) := by
  have hsort : sortAgents "name" l = l.insertionSort byName := by
    simp [sortAgents]
  refine ⟨?_, ?_, ?_⟩
  · rw [hsort]
    exact l.perm_insertionSort byName
  · rw [hsort]
    exact List.sorted_insertionSort byName l
  · intro a b hname hsub
    rw [hsort]
    exact List.pair_sublist_insertionSort (le_of_eq hname) hsub

/-- Witness for C5: two agents with the same name keep their order. -/
theorem C5_name_sort_witness :
    List.Sublist [mkAgent "a1" "Zoe" none, mkAgent "a2" "Zoe" none]
      (sortAgents "name" [mkAgent "a1" "Zoe" none, mkAgent "a2" "Zoe" none]) :=
  (C5_name_sort [mkAgent "a1" "Zoe" none, mkAgent "a2" "Zoe" none]).2.2
    (mkAgent "a1" "Zoe" none) (mkAgent "a2" "Zoe" none) rfl (List.Sublist.refl _)

/-- Claim C8 is false as stated: a resolved response whose `agents`
payload is truthy but not an array is a failing load that produces no
user-visible message at all (the non-array guard only logs a console
warning), although the state is indeed left unchanged. -/
theorem C8_load_failure_cex :
    loadFails (.resp true (some ⟨some .nonArr, none⟩)) = true ∧
    loadAgentsStep ⟨[mkAgent "9" "Dan" none], [mkAgent "9" "Dan" none]⟩
        (.resp true (some ⟨some .nonArr, none⟩)) =
      (⟨[mkAgent "9" "Dan" none], [mkAgent "9" "Dan" none]⟩, none) :=
  ⟨rfl, rfl⟩

/-- Claim C8 (amended): every failing load leaves the accumulated and
filtered agent lists unchanged; a user-visible message is produced
exactly when the failure is not the truthy non-array agents payload
(which is silently ignored), and any message produced on failure is an
error message. -/
theorem C8_load_failure (st : LocState) (o : LoadOutcome)
    (h : loadFails o = true) :
    (loadAgentsStep st o).1 = st ∧
    ((loadAgentsStep st o).2 = none ↔
      ∃ d : LoadData, o = .resp true (some d) ∧ d.agentsVal = some .nonArr) ∧
    (∀ m lvl, (loadAgentsStep st o).2 = some (m, lvl) → lvl = "error") := by
  cases o with
  | netError status respMsg =>
    refine ⟨rfl, ?_, ?_⟩
    · simp [loadAgentsStep]
    · intro m lvl hm
      simp [loadAgentsStep] at hm
      exact hm.2.symm
  | resp success data =>
    cases success with
    | false =>
      refine ⟨rfl, ?_, ?_⟩
      · simp [loadAgentsStep]
      · intro m lvl hm
        simp [loadAgentsStep] at hm
        exact hm.2.symm
    | true =>
      cases data with
      | none =>
        refine ⟨rfl, ?_, ?_⟩
        · simp [loadAgentsStep]
        · intro m lvl hm
          simp [loadAgentsStep] at hm
          exact hm.2.symm
      | some d =>
        rcases hv : d.agentsVal with _ | v
        · refine ⟨?_, ?_, ?_⟩
          · simp [loadAgentsStep, hv]
          · simp [loadAgentsStep, hv]
          · intro m lvl hm
            simp [loadAgentsStep, hv] at hm
            exact hm.2.symm
        · cases v with
          | arr l =>
            exfalso
            simp [loadFails, hv] at h
          | nonArr =>
            refine ⟨?_, ?_, ?_⟩
            · simp [loadAgentsStep, hv, processAgentsData]
            · simp only [loadAgentsStep, hv, processAgentsData]
              constructor
              · intro _
                exact ⟨d, rfl, hv⟩
              · intro _
                trivial
            · intro m lvl hm
              simp [loadAgentsStep, hv, processAgentsData] at hm

/-- Witness for C8 (amended): a network error with status 0 leaves the
state unchanged and any message it shows is an error message. -/
theorem C8_load_failure_witness :
    (loadAgentsStep initialLocState (.netError 0 none)).1 = initialLocState ∧
    (∀ m lvl, (loadAgentsStep initialLocState (.netError 0 none)).2 = some (m, lvl) →
      lvl = "error") :=
  ⟨(C8_load_failure initialLocState (.netError 0 none) rfl).1,
    (C8_load_failure initialLocState (.netError 0 none) rfl).2.2⟩
